import Mathlib

/-!
Verification of the flight-controller telemetry aggregation layer
(`fc_telemetry_receptor.py` and the onboard entry point `onboard/main.py`).

Modelling conventions of the shallow embedding:
* Python `float` fields are modelled as `ℚ` (values are only copied between
  records, never arithmetically combined, except the exact scaling
  `time.time() * 1000`), Python `int` fields as `ℤ`.
* The wall clock `time.time()` is an explicit parameter of every operation
  that reads it.
* Mutation of the shared snapshot is explicit state passing: an ingestor's
  loop body is a function `record → snapshot → snapshot`, and the collector
  is a record holding the canonical snapshot.
* Python sequence indexing `xs[i]`, which can raise `IndexError`, is
  modelled as `List.get? : Option`; code whose evaluation can raise an
  uncaught index error therefore lives in `Option`.
-/

namespace FcTelemetry

/-- The telemetry snapshot dataclass `FcTelemetryData`: one flat record of
the most recently known value of every tracked quantity plus a timestamp.
Field order and default values follow the Python declaration order. -/
structure FcTelemetryData where
  timestamp_ms : ℚ
  latitude_deg : ℚ := 0
  longitude_deg : ℚ := 0
  altitude_m_amsl : ℚ := 0
  altitude_m_rel : ℚ := 0
  velocity_north_mps : ℚ := 0
  velocity_east_mps : ℚ := 0
  velocity_down_mps : ℚ := 0
  roll_deg : ℚ := 0
  pitch_deg : ℚ := 0
  yaw_deg : ℚ := 0
  q_w : ℚ := 1
  q_x : ℚ := 0
  q_y : ℚ := 0
  q_z : ℚ := 0
  accel_body_x_m_per_s2 : ℚ := 0
  accel_body_y_m_per_s2 : ℚ := 0
  accel_body_z_m_per_s2 : ℚ := 0
  angular_vel_body_x_rad_ps : ℚ := 0
  angular_vel_body_y_rad_ps : ℚ := 0
  angular_vel_body_z_rad_ps : ℚ := 0
  motor_out : ℤ := 0
  servo1_out : ℤ := 0
  servo2_out : ℤ := 0
  servo3_out : ℤ := 0
  deriving DecidableEq

/-- A mavsdk position record as consumed by `_position_stream`. -/
structure Position where
  latitude_deg : ℚ
  longitude_deg : ℚ
  absolute_altitude_m : ℚ
  relative_altitude_m : ℚ
  deriving DecidableEq

/-- A mavsdk NED velocity record as consumed by `_velocity_stream`. -/
structure VelocityNed where
  north_m_s : ℚ
  east_m_s : ℚ
  down_m_s : ℚ
  deriving DecidableEq

/-- A mavsdk Euler attitude record as consumed by `_attitude_euler_stream`. -/
structure EulerAngle where
  roll_deg : ℚ
  pitch_deg : ℚ
  yaw_deg : ℚ
  deriving DecidableEq

/-- A mavsdk quaternion attitude record as consumed by
`_attitude_quaternion_stream`. -/
structure AttitudeQuaternion where
  w : ℚ
  x : ℚ
  y : ℚ
  z : ℚ
  deriving DecidableEq

/-- A mavsdk IMU record (body-frame FRD acceleration and angular velocity)
as consumed by `_imu_stream`. -/
structure Imu where
  accel_forward_m_s2 : ℚ
  accel_right_m_s2 : ℚ
  accel_down_m_s2 : ℚ
  angvel_forward_rad_s : ℚ
  angvel_right_rad_s : ℚ
  angvel_down_rad_s : ℚ
  deriving DecidableEq

/-- A mavsdk actuator output status record as consumed by
`_actuator_output_stream`: the raw actuator value array. -/
structure ActuatorOutputStatus where
  actuator : List ℚ
  deriving DecidableEq

/-- Python `int(x)` applied to a float: truncation toward zero. -/
def pyInt (q : ℚ) : ℤ :=
  if 0 ≤ q then ⌊q⌋ else ⌈q⌉

/-- Loop body of `_position_stream`: writes the position field group of the
snapshot from one position record, under the data lock. -/
def positionUpdate (p : Position) (d : FcTelemetryData) : FcTelemetryData :=
  { d with
    latitude_deg := p.latitude_deg
    longitude_deg := p.longitude_deg
    altitude_m_amsl := p.absolute_altitude_m
    altitude_m_rel := p.relative_altitude_m }

/-- Loop body of `_velocity_stream`: writes the NED velocity field group. -/
def velocityUpdate (v : VelocityNed) (d : FcTelemetryData) : FcTelemetryData :=
  { d with
    velocity_north_mps := v.north_m_s
    velocity_east_mps := v.east_m_s
    velocity_down_mps := v.down_m_s }

/-- Loop body of `_attitude_euler_stream`: writes the Euler attitude group. -/
def attitudeEulerUpdate (a : EulerAngle) (d : FcTelemetryData) : FcTelemetryData :=
  { d with
    roll_deg := a.roll_deg
    pitch_deg := a.pitch_deg
    yaw_deg := a.yaw_deg }

/-- Loop body of `_attitude_quaternion_stream`: writes the quaternion
attitude group. -/
def attitudeQuaternionUpdate (a : AttitudeQuaternion) (d : FcTelemetryData) :
    FcTelemetryData :=
  { d with
    q_w := a.w
    q_x := a.x
    q_y := a.y
    q_z := a.z }

/-- Loop body of `_imu_stream`: writes the inertial field group. -/
def imuUpdate (imu : Imu) (d : FcTelemetryData) : FcTelemetryData :=
  { d with
    accel_body_x_m_per_s2 := imu.accel_forward_m_s2
    accel_body_y_m_per_s2 := imu.accel_right_m_s2
    accel_body_z_m_per_s2 := imu.accel_down_m_s2
    angular_vel_body_x_rad_ps := imu.angvel_forward_rad_s
    angular_vel_body_y_rad_ps := imu.angvel_right_rad_s
    angular_vel_body_z_rad_ps := imu.angvel_down_rad_s }

/-- The fixed base index of the servo outputs inside the actuator value
array (`servo_start_idx` in `_actuator_output_stream`). -/
def servo_start_idx : ℕ := 8

/-- The guarded access pattern of `_actuator_output_stream`:
`int(values[i]) if len(values) > i else 0`. The index expression itself is
fallible (`Option`), as in Python, so that the absence of an uncaught
`IndexError` is a theorem rather than an artifact of total indexing. -/
def guardedIndex (a : List ℚ) (i : ℕ) : Option ℤ :=
  if a.length > i then (a.get? i).map pyInt else pure 0

/-- Loop body of `_actuator_output_stream`: maps the actuator value array
into the motor slot (index 0) and the three servo slots (indices 8, 9,
10), guarding each access with a length test and defaulting to 0. -/
def actuatorOutputUpdate (o : ActuatorOutputStatus) (d : FcTelemetryData) :
    Option FcTelemetryData := do
  let a := o.actuator
  let motor ← guardedIndex a 0
  let servo1 ← guardedIndex a servo_start_idx
  let servo2 ← guardedIndex a (servo_start_idx + 1)
  let servo3 ← guardedIndex a (servo_start_idx + 2)
  pure { d with
    motor_out := motor
    servo1_out := servo1
    servo2_out := servo2
    servo3_out := servo3 }

/-- Decimal digit character for a digit value 0..9 (values ≥ 10 never
arise; they map to a placeholder). -/
def digitChar : ℕ → Char
  | 0 => '0'
  | 1 => '1'
  | 2 => '2'
  | 3 => '3'
  | 4 => '4'
  | 5 => '5'
  | 6 => '6'
  | 7 => '7'
  | 8 => '8'
  | 9 => '9'
  | _ + 10 => '*'

/-- Fuelled base-10 digit rendering of a natural number, most significant
digit first. Fuel `n + 1` always suffices for rendering `n`. -/
def digitsOf : ℕ → ℕ → List Char
  | 0, _ => []
  | fuel + 1, n =>
    if n < 10 then [digitChar n]
    else digitsOf fuel (n / 10) ++ [digitChar (n % 10)]

/-- Decimal string of a natural number. -/
def natStr (n : ℕ) : String :=
  String.mk (digitsOf (n + 1) n)

/-- Decimal string of an integer, modelling Python `format(z, "d")`. -/
def intStr (z : ℤ) : String :=
  (if z < 0 then "-" else "") ++ natStr z.natAbs

/-- Fractional part of a fixed-point rendering: the digits of `fpart`
left-padded with zeros to exactly `prec` digits. -/
def fracPad (prec : ℕ) (fpart : ℕ) : String :=
  String.mk (List.replicate (prec - (natStr fpart).length) '0') ++ natStr fpart

/-- Fixed-point rendering of the scaled integer `n` (the value times
`10 ^ prec`): sign, integer digits, decimal point, `prec` fraction
digits. -/
def fixedOfInt (prec : ℕ) (n : ℤ) : String :=
  (if n < 0 then "-" else "") ++ natStr (n.natAbs / 10 ^ prec) ++ "." ++
    fracPad prec (n.natAbs % 10 ^ prec)

/-- Modelled from the format specs of `_get_field_formats`: Python
fixed-point float formatting `f"{q:.{prec}f}"`, as rounding the value at
`prec` decimal places and rendering sign, integer part, point and exactly
`prec` fraction digits. (CPython rounds the underlying binary float
half-to-even; the rounding mode is irrelevant to every property proved
here.) -/
def formatFixed (prec : ℕ) (q : ℚ) : String :=
  fixedOfInt prec (round (q * (10 : ℚ) ^ prec))

/-- The ordered field table of `FcTelemetryData`: dataclass declaration
order, each field paired with its formatted-value function per
`_get_field_formats` (fixed-point precision for floats, decimal for the
PWM integers). `to_csv_row` and `csv_header` both iterate this one
table, as the Python methods both iterate `dataclasses.fields`. -/
def fcFieldTable : List (String × (FcTelemetryData → String)) :=
  [("timestamp_ms", fun d => formatFixed 3 d.timestamp_ms),
   ("latitude_deg", fun d => formatFixed 8 d.latitude_deg),
   ("longitude_deg", fun d => formatFixed 8 d.longitude_deg),
   ("altitude_m_amsl", fun d => formatFixed 2 d.altitude_m_amsl),
   ("altitude_m_rel", fun d => formatFixed 2 d.altitude_m_rel),
   ("velocity_north_mps", fun d => formatFixed 3 d.velocity_north_mps),
   ("velocity_east_mps", fun d => formatFixed 3 d.velocity_east_mps),
   ("velocity_down_mps", fun d => formatFixed 3 d.velocity_down_mps),
   ("roll_deg", fun d => formatFixed 2 d.roll_deg),
   ("pitch_deg", fun d => formatFixed 2 d.pitch_deg),
   ("yaw_deg", fun d => formatFixed 2 d.yaw_deg),
   ("q_w", fun d => formatFixed 4 d.q_w),
   ("q_x", fun d => formatFixed 4 d.q_x),
   ("q_y", fun d => formatFixed 4 d.q_y),
   ("q_z", fun d => formatFixed 4 d.q_z),
   ("accel_body_x_m_per_s2", fun d => formatFixed 3 d.accel_body_x_m_per_s2),
   ("accel_body_y_m_per_s2", fun d => formatFixed 3 d.accel_body_y_m_per_s2),
   ("accel_body_z_m_per_s2", fun d => formatFixed 3 d.accel_body_z_m_per_s2),
   ("angular_vel_body_x_rad_ps", fun d => formatFixed 4 d.angular_vel_body_x_rad_ps),
   ("angular_vel_body_y_rad_ps", fun d => formatFixed 4 d.angular_vel_body_y_rad_ps),
   ("angular_vel_body_z_rad_ps", fun d => formatFixed 4 d.angular_vel_body_z_rad_ps),
   ("motor_out", fun d => intStr d.motor_out),
   ("servo1_out", fun d => intStr d.servo1_out),
   ("servo2_out", fun d => intStr d.servo2_out),
   ("servo3_out", fun d => intStr d.servo3_out)]

/-- Method `to_csv_row`: the comma-join of every field's formatted value,
in field declaration order. -/
def FcTelemetryData.to_csv_row (d : FcTelemetryData) : String :=
  String.intercalate "," (fcFieldTable.map (fun fld => fld.2 d))

/-- Static method `csv_header`: the comma-join of every field name, in
field declaration order. -/
def FcTelemetryData.csv_header : String :=
  String.intercalate "," (fcFieldTable.map Prod.fst)

/-- The collector's mutable state: the canonical snapshot guarded by the
data lock, and the running flag. The lock itself needs no model beyond the
atomicity that the explicit state passing already provides. -/
structure FcTelemetryCollector where
  current_data : FcTelemetryData
  running : Bool
  deriving DecidableEq

/-- Constructor `FcTelemetryCollector.__init__`: the initial snapshot is
built with every default and `timestamp_ms = time.time()` — the raw
seconds-scale clock value `now_s`. -/
def FcTelemetryCollector.init (now_s : ℚ) : FcTelemetryCollector :=
  { current_data := { timestamp_ms := now_s }
    running := false }

/-- Method `get_latest_data`: under the data lock, builds a value copy of
the canonical snapshot (`dataclasses.replace`) whose `timestamp_ms` is
`time.time() * 1000` — the milliseconds-scale clock — and returns it. The
returned pair is (copy, collector state after the call). -/
def FcTelemetryCollector.get_latest_data (c : FcTelemetryCollector)
    (now_s : ℚ) : FcTelemetryData × FcTelemetryCollector :=
  ({ c.current_data with timestamp_ms := now_s * 1000 }, c)

/-- Method `stop`: clears the running flag. -/
def FcTelemetryCollector.stop (c : FcTelemetryCollector) : FcTelemetryCollector :=
  { c with running := false }

/-- Outcome of one iteration of the logging loop in
`FcTelemetryLogger.start_logging`:
* `ok` — reading the store, serializing and appending the row all succeed;
* `rowFail` — some step raises an `Exception`, caught by the inner
  `except Exception` handler (logged, row dropped, loop continues);
* `fatal` — a non-`Exception` interruption (such as task cancellation)
  escapes the loop body uncaught.
The loop also stops, after the last listed tick, when the running flag is
observed false at the `while` test; a run's tick list is therefore finite. -/
inductive Tick where
  | ok
  | rowFail
  | fatal
  deriving DecidableEq

/-- Observable actions of `start_logging` on its sink file. -/
inductive SinkEvent where
  | opened
  | wroteHeader
  | wroteRow
  | closed
  deriving DecidableEq

/-- The `while self._running` loop of `start_logging`: one row written per
successful tick, a caught row failure writes nothing and continues, a
fatal interruption ends the loop at once. -/
def loggingLoop : List Tick → List SinkEvent
  | [] => []
  | Tick.ok :: ts => SinkEvent.wroteRow :: loggingLoop ts
  | Tick.rowFail :: ts => loggingLoop ts
  | Tick.fatal :: _ => []

/-- Method `FcTelemetryLogger.start_logging` as a sink-event trace.
Mirrors the source's `try … except Exception … finally` structure:
* `openOk = false`: `open` raises, `_file_handle` is still `None`, the
  outer handler logs, the `finally` block does nothing — no events;
* `headerOk = false`: the header write raises after a successful open; the
  outer handler catches it and the `finally` block closes the handle;
* otherwise the loop runs over `ticks` and the `finally` block closes the
  handle on the way out (also when a fatal interruption ended the loop). -/
def start_logging (openOk headerOk : Bool) (ticks : List Tick) : List SinkEvent :=
  if openOk then
    if headerOk then
      SinkEvent.opened :: SinkEvent.wroteHeader ::
        (loggingLoop ticks ++ [SinkEvent.closed])
    else [SinkEvent.opened, SinkEvent.closed]
  else []

/-- The stop flags of the system: `FcTelemetryCollector._running` (cleared
by `FcTelemetryCollector.stop`, the signal `onboard/main.py` raises on
shutdown) and `FcTelemetryLogger._running` (cleared by `stop_logging`). -/
structure StopFlags where
  collectorRunning : Bool
  loggerRunning : Bool
  deriving DecidableEq

/-- The flag state after stopping has been signalled on every flag. -/
def stopSignalled : StopFlags :=
  { collectorRunning := false, loggerRunning := false }

/-- Iteration guard of each ingestor loop: `if not self._running: break`
against the collector's flag (`_position_stream` through
`_actuator_output_stream`). -/
def ingestorContinues (f : StopFlags) : Bool :=
  f.collectorRunning

/-- Iteration guard of the Recorder loop: `while self._running` against
the logger's own flag (`start_logging`). -/
def recorderContinues (f : StopFlags) : Bool :=
  f.loggerRunning

/-- Iteration guard of the Printer loop: `while True` in
`print_telemetry_data` of `onboard/main.py` — no flag is consulted. -/
def printerContinues (_ : StopFlags) : Bool :=
  true

/-- Number of loop iterations a task executes out of the next `n`
scheduling opportunities while the flag state stays `f`: each iteration
boundary re-evaluates the task's guard. -/
def loopIterations (guard : StopFlags → Bool) (f : StopFlags) : ℕ → ℕ
  | 0 => 0
  | n + 1 => if guard f then loopIterations guard f n + 1 else 0

/-- The value the actuator ingestor stores for array slot `i`: the
truncated array element when the index is in range, else 0. -/
def actuatorSlot (a : List ℚ) (i : ℕ) : ℤ :=
  if h : i < a.length then pyInt (a.get ⟨i, h⟩) else 0

lemma digitChar_ne_comma (n : ℕ) : digitChar n ≠ ',' := by
  match n with
  | 0 => decide
  | 1 => decide
  | 2 => decide
  | 3 => decide
  | 4 => decide
  | 5 => decide
  | 6 => decide
  | 7 => decide
  | 8 => decide
  | 9 => decide
  | _ + 10 => show ('*' : Char) ≠ ','; decide

lemma comma_not_mem_digitsOf (fuel n : ℕ) : ',' ∉ digitsOf fuel n := by
  induction fuel generalizing n with
  | zero => simp [digitsOf]
  | succ fuel ih =>
    rw [digitsOf]
    split
    · intro hmem
      rw [List.mem_singleton] at hmem
      exact digitChar_ne_comma n hmem.symm
    · intro hmem
      rcases List.mem_append.mp hmem with h | h
      · exact ih _ h
      · rw [List.mem_singleton] at h
        exact digitChar_ne_comma (n % 10) h.symm

lemma comma_not_mem_natStr (n : ℕ) : ',' ∉ (natStr n).data :=
  comma_not_mem_digitsOf (n + 1) n

lemma comma_not_mem_intStr (z : ℤ) : ',' ∉ (intStr z).data := by
  intro hmem
  rw [intStr, String.data_append] at hmem
  rcases List.mem_append.mp hmem with h | h
  · split at h <;> exact absurd h (by decide)
  · exact comma_not_mem_natStr _ h

lemma comma_not_mem_fracPad (prec fpart : ℕ) : ',' ∉ (fracPad prec fpart).data := by
  intro hmem
  rw [fracPad, String.data_append] at hmem
  rcases List.mem_append.mp hmem with h | h
  · exact absurd (List.eq_of_mem_replicate h) (by decide)
  · exact comma_not_mem_natStr _ h

lemma comma_not_mem_fixedOfInt (prec : ℕ) (n : ℤ) : ',' ∉ (fixedOfInt prec n).data := by
  intro hmem
  rw [fixedOfInt] at hmem
  simp only [String.data_append] at hmem
  rcases List.mem_append.mp hmem with h | h
  · rcases List.mem_append.mp h with h | h
    · rcases List.mem_append.mp h with h | h
      · split at h <;> exact absurd h (by decide)
      · exact comma_not_mem_natStr _ h
    · exact absurd h (by decide)
  · exact comma_not_mem_fracPad _ _ h

lemma comma_not_mem_formatFixed (prec : ℕ) (q : ℚ) : ',' ∉ (formatFixed prec q).data :=
  comma_not_mem_fixedOfInt _ _

lemma string_intercalate_go_data (s acc : String) (l : List String) :
    (String.intercalate.go acc s l).data =
      acc.data ++ (l.map (fun a => s.data ++ a.data)).flatten := by
  induction l generalizing acc with
  | nil => simp [String.intercalate.go]
  | cons a as ih =>
    simp [String.intercalate.go, ih, List.append_assoc]

lemma flatten_intersperse {α : Type} (sep x : List α) (xs : List (List α)) :
    (List.intersperse sep (x :: xs)).flatten
      = x ++ (xs.map (fun y => sep ++ y)).flatten := by
  induction xs generalizing x with
  | nil => simp
  | cons y ys ih => simp [List.intersperse_cons_cons, ih, List.append_assoc]

lemma string_intercalate_data (s : String) (l : List String) :
    (String.intercalate s l).data = List.intercalate s.data (l.map String.data) := by
  cases l with
  | nil => rfl
  | cons a as =>
    rw [String.intercalate, string_intercalate_go_data, List.map_cons,
      List.intercalate, flatten_intersperse, List.map_map]
    rfl

lemma splitOn_comma_intercalate (l : List String) (h : ∀ s ∈ l, ',' ∉ s.data)
    (hne : l ≠ []) :
    (String.intercalate "," l).data.splitOn ',' = l.map String.data := by
  rw [string_intercalate_data, show (",".data) = [','] from rfl]
  refine List.splitOn_intercalate _ ',' ?_ ?_
  · intro m hm
    rcases List.mem_map.mp hm with ⟨s, hs, rfl⟩
    exact h s hs
  · intro hc
    exact hne (List.map_eq_nil_iff.mp hc)

lemma guardedIndex_eq (a : List ℚ) (i : ℕ) :
    guardedIndex a i = some (actuatorSlot a i) := by
  by_cases h : i < a.length
  · rw [guardedIndex, if_pos h, actuatorSlot, dif_pos h, List.get?_eq_get h]
    rfl
  · rw [guardedIndex, if_neg h, actuatorSlot, dif_neg h]
    rfl

lemma actuatorOutputUpdate_eq (o : ActuatorOutputStatus) (d : FcTelemetryData) :
    actuatorOutputUpdate o d = some
      { d with
        motor_out := actuatorSlot o.actuator 0
        servo1_out := actuatorSlot o.actuator servo_start_idx
        servo2_out := actuatorSlot o.actuator (servo_start_idx + 1)
        servo3_out := actuatorSlot o.actuator (servo_start_idx + 2) } := by
  simp only [actuatorOutputUpdate, guardedIndex_eq]
  rfl

lemma loggingLoop_count_opened (ticks : List Tick) :
    (loggingLoop ticks).count SinkEvent.opened = 0 := by
  induction ticks with
  | nil => rfl
  | cons t ts ih => cases t <;> simp [loggingLoop, ih, List.count_cons]

lemma loggingLoop_count_closed (ticks : List Tick) :
    (loggingLoop ticks).count SinkEvent.closed = 0 := by
  induction ticks with
  | nil => rfl
  | cons t ts ih => cases t <;> simp [loggingLoop, ih, List.count_cons]

lemma loggingLoop_rowFail_dropped (pre post : List Tick) :
    loggingLoop (pre ++ Tick.rowFail :: post) = loggingLoop (pre ++ post) := by
  induction pre with
  | nil => rfl
  | cons t ts ih => cases t <;> simp [loggingLoop, ih]

/-- The position field group of a snapshot, as one tuple. -/
def positionFields (d : FcTelemetryData) : ℚ × ℚ × ℚ × ℚ :=
  (d.latitude_deg, d.longitude_deg, d.altitude_m_amsl, d.altitude_m_rel)

/-- The velocity field group of a snapshot, as one tuple. -/
def velocityFields (d : FcTelemetryData) : ℚ × ℚ × ℚ :=
  (d.velocity_north_mps, d.velocity_east_mps, d.velocity_down_mps)

/-- The Euler attitude field group of a snapshot, as one tuple. -/
def eulerFields (d : FcTelemetryData) : ℚ × ℚ × ℚ :=
  (d.roll_deg, d.pitch_deg, d.yaw_deg)

/-- The quaternion attitude field group of a snapshot, as one tuple. -/
def quaternionFields (d : FcTelemetryData) : ℚ × ℚ × ℚ × ℚ :=
  (d.q_w, d.q_x, d.q_y, d.q_z)

/-- The inertial field group of a snapshot, as one tuple. -/
def inertialFields (d : FcTelemetryData) : ℚ × ℚ × ℚ × ℚ × ℚ × ℚ :=
  (d.accel_body_x_m_per_s2, d.accel_body_y_m_per_s2, d.accel_body_z_m_per_s2,
   d.angular_vel_body_x_rad_ps, d.angular_vel_body_y_rad_ps,
   d.angular_vel_body_z_rad_ps)

/-- The actuator field group of a snapshot, as one tuple. -/
def actuatorFields (d : FcTelemetryData) : ℤ × ℤ × ℤ × ℤ :=
  (d.motor_out, d.servo1_out, d.servo2_out, d.servo3_out)

/-- C1: `get_latest_data` returns a value copy of the canonical snapshot
whose fields all equal the corresponding canonical fields except
`timestamp_ms`, which is set to the millisecond time of the read; the
collector state after the read is the state before it. The copy is an
independent value (all fields are scalars, as in the Python dataclass
copied by `dataclasses.replace`), so mutating a returned copy has no
channel back into the canonical state or into any previously returned
copy; in particular a later read is unaffected by earlier reads. -/
theorem get_latest_data_copy_semantics (c : FcTelemetryCollector) (now_s t2 : ℚ) :
    (c.get_latest_data now_s).1.latitude_deg = c.current_data.latitude_deg
    ∧ (c.get_latest_data now_s).1.longitude_deg = c.current_data.longitude_deg
    ∧ (c.get_latest_data now_s).1.altitude_m_amsl = c.current_data.altitude_m_amsl
    ∧ (c.get_latest_data now_s).1.altitude_m_rel = c.current_data.altitude_m_rel
    ∧ (c.get_latest_data now_s).1.velocity_north_mps = c.current_data.velocity_north_mps
    ∧ (c.get_latest_data now_s).1.velocity_east_mps = c.current_data.velocity_east_mps
    ∧ (c.get_latest_data now_s).1.velocity_down_mps = c.current_data.velocity_down_mps
    ∧ (c.get_latest_data now_s).1.roll_deg = c.current_data.roll_deg
    ∧ (c.get_latest_data now_s).1.pitch_deg = c.current_data.pitch_deg
    ∧ (c.get_latest_data now_s).1.yaw_deg = c.current_data.yaw_deg
    ∧ (c.get_latest_data now_s).1.q_w = c.current_data.q_w
    ∧ (c.get_latest_data now_s).1.q_x = c.current_data.q_x
    ∧ (c.get_latest_data now_s).1.q_y = c.current_data.q_y
    ∧ (c.get_latest_data now_s).1.q_z = c.current_data.q_z
    ∧ (c.get_latest_data now_s).1.accel_body_x_m_per_s2 = c.current_data.accel_body_x_m_per_s2
    ∧ (c.get_latest_data now_s).1.accel_body_y_m_per_s2 = c.current_data.accel_body_y_m_per_s2
    ∧ (c.get_latest_data now_s).1.accel_body_z_m_per_s2 = c.current_data.accel_body_z_m_per_s2
    ∧ (c.get_latest_data now_s).1.angular_vel_body_x_rad_ps = c.current_data.angular_vel_body_x_rad_ps
    ∧ (c.get_latest_data now_s).1.angular_vel_body_y_rad_ps = c.current_data.angular_vel_body_y_rad_ps
    ∧ (c.get_latest_data now_s).1.angular_vel_body_z_rad_ps = c.current_data.angular_vel_body_z_rad_ps
    ∧ (c.get_latest_data now_s).1.motor_out = c.current_data.motor_out
    ∧ (c.get_latest_data now_s).1.servo1_out = c.current_data.servo1_out
    ∧ (c.get_latest_data now_s).1.servo2_out = c.current_data.servo2_out
    ∧ (c.get_latest_data now_s).1.servo3_out = c.current_data.servo3_out
    ∧ (c.get_latest_data now_s).1.timestamp_ms = now_s * 1000
    ∧ (c.get_latest_data now_s).2 = c
    ∧ ((c.get_latest_data now_s).2.get_latest_data t2).1 = (c.get_latest_data t2).1 :=
  ⟨rfl, rfl, rfl, rfl, rfl, rfl, rfl, rfl, rfl, rfl, rfl, rfl, rfl, rfl, rfl,
   rfl, rfl, rfl, rfl, rfl, rfl, rfl, rfl, rfl, rfl, rfl, rfl⟩

/-- C2: each ingestor's update writes only its own field group: for every
record, applying one group's update leaves every other group's fields, and
the timestamp, unchanged. The actuator update is stated through its
(always-`some`) result. -/
theorem field_group_disjoint_updates (p : Position) (v : VelocityNed)
    (e : EulerAngle) (q : AttitudeQuaternion) (m : Imu)
    (o : ActuatorOutputStatus) (d : FcTelemetryData) :
    (velocityFields (positionUpdate p d) = velocityFields d
      ∧ eulerFields (positionUpdate p d) = eulerFields d
      ∧ quaternionFields (positionUpdate p d) = quaternionFields d
      ∧ inertialFields (positionUpdate p d) = inertialFields d
      ∧ actuatorFields (positionUpdate p d) = actuatorFields d
      ∧ (positionUpdate p d).timestamp_ms = d.timestamp_ms)
    ∧ (positionFields (velocityUpdate v d) = positionFields d
      ∧ eulerFields (velocityUpdate v d) = eulerFields d
      ∧ quaternionFields (velocityUpdate v d) = quaternionFields d
      ∧ inertialFields (velocityUpdate v d) = inertialFields d
      ∧ actuatorFields (velocityUpdate v d) = actuatorFields d
      ∧ (velocityUpdate v d).timestamp_ms = d.timestamp_ms)
    ∧ (positionFields (attitudeEulerUpdate e d) = positionFields d
      ∧ velocityFields (attitudeEulerUpdate e d) = velocityFields d
      ∧ quaternionFields (attitudeEulerUpdate e d) = quaternionFields d
      ∧ inertialFields (attitudeEulerUpdate e d) = inertialFields d
      ∧ actuatorFields (attitudeEulerUpdate e d) = actuatorFields d
      ∧ (attitudeEulerUpdate e d).timestamp_ms = d.timestamp_ms)
    ∧ (positionFields (attitudeQuaternionUpdate q d) = positionFields d
      ∧ velocityFields (attitudeQuaternionUpdate q d) = velocityFields d
      ∧ eulerFields (attitudeQuaternionUpdate q d) = eulerFields d
      ∧ inertialFields (attitudeQuaternionUpdate q d) = inertialFields d
      ∧ actuatorFields (attitudeQuaternionUpdate q d) = actuatorFields d
      ∧ (attitudeQuaternionUpdate q d).timestamp_ms = d.timestamp_ms)
    ∧ (positionFields (imuUpdate m d) = positionFields d
      ∧ velocityFields (imuUpdate m d) = velocityFields d
      ∧ eulerFields (imuUpdate m d) = eulerFields d
      ∧ quaternionFields (imuUpdate m d) = quaternionFields d
      ∧ actuatorFields (imuUpdate m d) = actuatorFields d
      ∧ (imuUpdate m d).timestamp_ms = d.timestamp_ms)
    ∧ (∀ d2, actuatorOutputUpdate o d = some d2 →
        positionFields d2 = positionFields d
        ∧ velocityFields d2 = velocityFields d
        ∧ eulerFields d2 = eulerFields d
        ∧ quaternionFields d2 = quaternionFields d
        ∧ inertialFields d2 = inertialFields d
        ∧ d2.timestamp_ms = d.timestamp_ms) := by
  refine ⟨⟨rfl, rfl, rfl, rfl, rfl, rfl⟩, ⟨rfl, rfl, rfl, rfl, rfl, rfl⟩,
    ⟨rfl, rfl, rfl, rfl, rfl, rfl⟩, ⟨rfl, rfl, rfl, rfl, rfl, rfl⟩,
    ⟨rfl, rfl, rfl, rfl, rfl, rfl⟩, ?_⟩
  intro d2 h
  rw [actuatorOutputUpdate_eq] at h
  cases Option.some.inj h
  exact ⟨rfl, rfl, rfl, rfl, rfl, rfl⟩

/-- Witness for C2 at concrete inputs, with the actuator hypothesis
discharged on the empty value array. -/
theorem field_group_disjoint_updates_witness :
    velocityFields (positionUpdate ⟨1, 2, 3, 4⟩ { timestamp_ms := 5 })
      = velocityFields { timestamp_ms := 5 }
    ∧ quaternionFields ({ timestamp_ms := 5 } : FcTelemetryData)
      = quaternionFields ({ timestamp_ms := 5 } : FcTelemetryData) := by
  have h := field_group_disjoint_updates ⟨1, 2, 3, 4⟩ ⟨0, 0, 0⟩ ⟨0, 0, 0⟩
    ⟨1, 0, 0, 0⟩ ⟨0, 0, 0, 0, 0, 0⟩ ⟨[]⟩ { timestamp_ms := 5 }
  exact ⟨h.1.1, (h.2.2.2.2.2 { timestamp_ms := 5 } (by decide)).2.2.2.1⟩

/-- C7: a read of a freshly constructed collector — before any ingestor
has delivered a record — returns zero for every position, velocity, Euler
attitude, inertial and actuator field, and the unit quaternion
(1, 0, 0, 0) for the quaternion attitude fields. -/
theorem initial_read_returns_documented_defaults (now0_s now_s : ℚ) :
    positionFields ((FcTelemetryCollector.init now0_s).get_latest_data now_s).1
      = (0, 0, 0, 0)
    ∧ velocityFields ((FcTelemetryCollector.init now0_s).get_latest_data now_s).1
      = (0, 0, 0)
    ∧ eulerFields ((FcTelemetryCollector.init now0_s).get_latest_data now_s).1
      = (0, 0, 0)
    ∧ quaternionFields ((FcTelemetryCollector.init now0_s).get_latest_data now_s).1
      = (1, 0, 0, 0)
    ∧ inertialFields ((FcTelemetryCollector.init now0_s).get_latest_data now_s).1
      = (0, 0, 0, 0, 0, 0)
    ∧ actuatorFields ((FcTelemetryCollector.init now0_s).get_latest_data now_s).1
      = (0, 0, 0, 0) :=
  ⟨rfl, rfl, rfl, rfl, rfl, rfl⟩

/-- C10: the snapshot built at collector construction takes `timestamp_ms`
directly from the seconds-scale clock (`time.time()`), while every copy
returned by `get_latest_data` takes it from the same clock scaled by 1000
(`time.time() * 1000`); at any common clock reading, the read-time
timestamp is exactly 1000 times the construction-time timestamp. -/
theorem init_seconds_read_milliseconds_scale (now_s : ℚ) (c : FcTelemetryCollector) :
    (FcTelemetryCollector.init now_s).current_data.timestamp_ms = now_s
    ∧ ((c.get_latest_data now_s).1).timestamp_ms = now_s * 1000
    ∧ ((c.get_latest_data now_s).1).timestamp_ms
        = 1000 * (FcTelemetryCollector.init now_s).current_data.timestamp_ms := by
  refine ⟨rfl, rfl, ?_⟩
  show now_s * 1000 = 1000 * now_s
  ring

/-- C3: on every termination path of `start_logging` — normal stop via the
running flag (tick list exhausted), a caught or fatal fault inside the
loop, a header-write failure, or a failure to open the file — the sink is
either never opened (and never closed) or is closed exactly once. -/
theorem recorder_sink_closed_exactly_once (openOk headerOk : Bool)
    (ticks : List Tick) :
    ((start_logging openOk headerOk ticks).count SinkEvent.opened = 0
      ∧ (start_logging openOk headerOk ticks).count SinkEvent.closed = 0)
    ∨ ((start_logging openOk headerOk ticks).count SinkEvent.opened = 1
      ∧ (start_logging openOk headerOk ticks).count SinkEvent.closed = 1) := by
  cases openOk with
  | false => exact Or.inl ⟨rfl, rfl⟩
  | true =>
    cases headerOk with
    | false => exact Or.inr ⟨rfl, rfl⟩
    | true =>
      refine Or.inr ⟨?_, ?_⟩
      · simp [start_logging, List.count_cons, List.count_append,
          loggingLoop_count_opened]
      · simp [start_logging, List.count_cons, List.count_append,
          loggingLoop_count_closed]

/-- C4: an exception while reading the store, serializing, or appending a
row on one loop iteration is caught, that tick's row is not written, and
the run continues exactly as the run without the faulted tick — a single
failed row never terminates the Recorder nor affects any other row. -/
theorem recorder_row_fault_isolated (openOk headerOk : Bool)
    (pre post : List Tick) :
    start_logging openOk headerOk (pre ++ Tick.rowFail :: post)
      = start_logging openOk headerOk (pre ++ post) := by
  cases openOk with
  | false => rfl
  | true =>
    cases headerOk with
    | false => rfl
    | true => simp [start_logging, loggingLoop_rowFail_dropped]

/-- The dataclass field names of `FcTelemetryData`, in declaration order. -/
def fieldNames : List String :=
  ["timestamp_ms", "latitude_deg", "longitude_deg", "altitude_m_amsl",
   "altitude_m_rel", "velocity_north_mps", "velocity_east_mps",
   "velocity_down_mps", "roll_deg", "pitch_deg", "yaw_deg",
   "q_w", "q_x", "q_y", "q_z",
   "accel_body_x_m_per_s2", "accel_body_y_m_per_s2", "accel_body_z_m_per_s2",
   "angular_vel_body_x_rad_ps", "angular_vel_body_y_rad_ps",
   "angular_vel_body_z_rad_ps", "motor_out", "servo1_out", "servo2_out",
   "servo3_out"]

lemma comma_not_mem_headerNames :
    ∀ s ∈ fcFieldTable.map Prod.fst, ',' ∉ s.data := by
  decide

lemma csv_header_splitOn_eq :
    (FcTelemetryData.csv_header).data.splitOn ',' = fieldNames.map String.data := by
  rw [FcTelemetryData.csv_header,
    splitOn_comma_intercalate _ comma_not_mem_headerNames (by simp [fcFieldTable])]
  rfl

/-- C5 counterexample: the header row does not consist of 23 comma-joined
names (22 data fields plus 1 timestamp) — splitting it on commas yields 25
names, not 23. -/
theorem csv_header_not_23_names :
    ((FcTelemetryData.csv_header).data.splitOn ',').length ≠ 22 + 1 := by
  rw [csv_header_splitOn_eq, List.length_map]
  decide

/-- C5 amended: the header row written by the Recorder is the comma-join
of the field names in fixed declaration order and consists of exactly 24
data fields plus 1 timestamp field — 25 names in total. -/
theorem csv_header_is_25_names :
    (FcTelemetryData.csv_header).data.splitOn ',' = fieldNames.map String.data
    ∧ ((FcTelemetryData.csv_header).data.splitOn ',').length = 24 + 1 := by
  refine ⟨csv_header_splitOn_eq, ?_⟩
  rw [csv_header_splitOn_eq, List.length_map]
  decide

lemma comma_not_mem_rowStrings (d : FcTelemetryData) :
    ∀ s ∈ fcFieldTable.map (fun fld => fld.2 d), ',' ∉ s.data := by
  intro s hs
  simp only [fcFieldTable, List.map_cons, List.map_nil, List.mem_cons,
    List.not_mem_nil, or_false] at hs
  rcases hs with rfl | rfl | rfl | rfl | rfl | rfl | rfl | rfl | rfl | rfl |
    rfl | rfl | rfl | rfl | rfl | rfl | rfl | rfl | rfl | rfl | rfl | rfl |
    rfl | rfl | rfl
  all_goals first
    | exact comma_not_mem_formatFixed _ _
    | exact comma_not_mem_intStr _

/-- C6: for every snapshot, the row produced by `to_csv_row` splits on
commas into exactly the per-field formatted values, in the same field
order as the header names, and the number of comma-delimited row values
equals the number of comma-delimited header names. -/
theorem csv_row_matches_header_arity_and_order (d : FcTelemetryData) :
    (FcTelemetryData.to_csv_row d).data.splitOn ','
        = (fcFieldTable.map (fun fld => fld.2 d)).map String.data
    ∧ (FcTelemetryData.csv_header).data.splitOn ','
        = (fcFieldTable.map Prod.fst).map String.data
    ∧ ((FcTelemetryData.to_csv_row d).data.splitOn ',').length
        = ((FcTelemetryData.csv_header).data.splitOn ',').length := by
  have hrow : (FcTelemetryData.to_csv_row d).data.splitOn ','
      = (fcFieldTable.map (fun fld => fld.2 d)).map String.data := by
    rw [FcTelemetryData.to_csv_row,
      splitOn_comma_intercalate _ (comma_not_mem_rowStrings d)
        (by simp [fcFieldTable])]
  have hhdr : (FcTelemetryData.csv_header).data.splitOn ','
      = (fcFieldTable.map Prod.fst).map String.data := by
    rw [FcTelemetryData.csv_header,
      splitOn_comma_intercalate _ comma_not_mem_headerNames
        (by simp [fcFieldTable])]
  refine ⟨hrow, hhdr, ?_⟩
  rw [hrow, hhdr]
  simp

/-- C8: for a value array of any length, the actuator update always
produces a snapshot (indexing never errors), writing the truncated array
value at index 0 to the motor slot and at the fixed offsets 8, 9, 10 to
the three servo slots, and writing zero to any of the four slots whose
index is not below the array's length. -/
theorem actuator_update_never_index_errors (o : ActuatorOutputStatus)
    (d : FcTelemetryData) :
    ∃ d2, actuatorOutputUpdate o d = some d2
      ∧ (∀ h : 0 < o.actuator.length, d2.motor_out = pyInt (o.actuator.get ⟨0, h⟩))
      ∧ (o.actuator.length = 0 → d2.motor_out = 0)
      ∧ (∀ h : 8 < o.actuator.length, d2.servo1_out = pyInt (o.actuator.get ⟨8, h⟩))
      ∧ (o.actuator.length ≤ 8 → d2.servo1_out = 0)
      ∧ (∀ h : 9 < o.actuator.length, d2.servo2_out = pyInt (o.actuator.get ⟨9, h⟩))
      ∧ (o.actuator.length ≤ 9 → d2.servo2_out = 0)
      ∧ (∀ h : 10 < o.actuator.length, d2.servo3_out = pyInt (o.actuator.get ⟨10, h⟩))
      ∧ (o.actuator.length ≤ 10 → d2.servo3_out = 0) := by
  refine ⟨_, actuatorOutputUpdate_eq o d, ?_, ?_, ?_, ?_, ?_, ?_, ?_, ?_⟩
  · intro h
    show actuatorSlot o.actuator 0 = _
    rw [actuatorSlot, dif_pos h]
  · intro h
    show actuatorSlot o.actuator 0 = 0
    rw [actuatorSlot, dif_neg (by omega)]
  · intro h
    show actuatorSlot o.actuator 8 = _
    rw [actuatorSlot, dif_pos h]
  · intro h
    show actuatorSlot o.actuator 8 = 0
    rw [actuatorSlot, dif_neg (by omega)]
  · intro h
    show actuatorSlot o.actuator 9 = _
    rw [actuatorSlot, dif_pos h]
  · intro h
    show actuatorSlot o.actuator 9 = 0
    rw [actuatorSlot, dif_neg (by omega)]
  · intro h
    show actuatorSlot o.actuator 10 = _
    rw [actuatorSlot, dif_pos h]
  · intro h
    show actuatorSlot o.actuator 10 = 0
    rw [actuatorSlot, dif_neg (by omega)]

/-- Witness for C8 on a concrete 11-element array: index 0 lands in the
motor slot and indices 8, 9, 10 in the servo slots. -/
theorem actuator_update_never_index_errors_witness :
    ∃ d2, actuatorOutputUpdate ⟨[1500, 2, 3, 4, 5, 6, 7, 8, 1600, 1700, 1800]⟩
        { timestamp_ms := 0 } = some d2
      ∧ d2.motor_out = 1500 ∧ d2.servo1_out = 1600
      ∧ d2.servo2_out = 1700 ∧ d2.servo3_out = 1800 := by
  obtain ⟨d2, heq, hm, _, hs1, _, hs2, _, hs3, _⟩ :=
    actuator_update_never_index_errors
      ⟨[1500, 2, 3, 4, 5, 6, 7, 8, 1600, 1700, 1800]⟩ { timestamp_ms := 0 }
  refine ⟨d2, heq, ?_, ?_, ?_, ?_⟩
  · rw [hm (by decide)]; decide
  · rw [hs1 (by decide)]; decide
  · rw [hs2 (by decide)]; decide
  · rw [hs3 (by decide)]; decide

/-- C9 counterexample: with every stop flag cleared, the Printer still
executes its next iteration — its loop is a bare `while True` in
`print_telemetry_data` and consults no stop flag — so setting the stop
signal does not make every task terminate at its next iteration
boundary. -/
theorem printer_ignores_stop_flag :
    ¬ loopIterations printerContinues stopSignalled 1 = 0 := by
  decide

/-- C9 amended: stopping is signalled through per-component running flags
rather than one flag checked by every task: each of the six ingestors
checks the collector's flag at its next iteration boundary and terminates
once it is cleared, and the Recorder does the same with its own separate
flag; the Printer checks no stop flag and keeps iterating regardless of
the flags (it is stopped only by external cancellation). -/
theorem stop_flag_per_task_semantics (f : StopFlags) (n : ℕ) :
    (f.collectorRunning = false → loopIterations ingestorContinues f n = 0)
    ∧ (f.loggerRunning = false → loopIterations recorderContinues f n = 0)
    ∧ loopIterations printerContinues f n = n := by
  refine ⟨?_, ?_, ?_⟩
  · intro h
    cases n with
    | zero => rfl
    | succ n => simp [loopIterations, ingestorContinues, h]
  · intro h
    cases n with
    | zero => rfl
    | succ n => simp [loopIterations, recorderContinues, h]
  · induction n with
    | zero => rfl
    | succ n ih => simp [loopIterations, printerContinues, ih]

/-- Witness for the amended C9 with all stop flags cleared and three
scheduling opportunities. -/
theorem stop_flag_per_task_semantics_witness :
    loopIterations ingestorContinues stopSignalled 3 = 0
    ∧ loopIterations recorderContinues stopSignalled 3 = 0
    ∧ loopIterations printerContinues stopSignalled 3 = 3 :=
  ⟨(stop_flag_per_task_semantics stopSignalled 3).1 rfl,
   (stop_flag_per_task_semantics stopSignalled 3).2.1 rfl,
   (stop_flag_per_task_semantics stopSignalled 3).2.2⟩

end FcTelemetry
